import Mathlib

/-!
Verification of the canvas/collage editor of the nft-collage repository.

The definitions below are a shallow embedding of `components/GridCanvas.tsx`
(plus the selection handling of `App.tsx`).  JavaScript numbers are modelled
by exact rationals (ℚ); `Math.floor` is `⌊·⌋`, `Math.ceil` is `⌈·⌉`, and
`Math.round x` is `⌊x + 1/2⌋` (JavaScript rounds halves toward +∞).
`Math.random()`-derived data (fallback positions, unique ids, the shuffle) is
threaded in as explicit parameters: a random position in the unit square, a
numeric seed for id generation, and input lists taken in their post-shuffle
order.  React `useState` updates inside one synchronous event handler are
collapsed to their net effect on the state; where a handler reads a state
variable that an earlier `set` call of the same event has already replaced
(a stale closure), the model reads the old value, exactly as React does.
-/

/-- The `NFT` record of `hooks/useWalletCollections` as used by the canvas:
optional string fields, where a JavaScript truthiness test on a field is
`false` for a missing field and for the empty string. -/
structure NFT where
  id : Option String
  name : Option String
  image_url : Option String
  collection : Option String
  contract : Option String
  identifier : Option String
  contract_address : Option String
  token_id : Option String
  is_collection_image : Bool
deriving DecidableEq, Repr, Inhabited

/-- `CanvasItem` of `GridCanvas.tsx`: one placed tile. -/
structure CanvasItem where
  id : String
  nft : NFT
  x : ℚ
  y : ℚ
  size : ℚ
  zIndex : ℤ
  cropX : ℚ
  cropY : ℚ
  cropWidth : ℚ
  cropHeight : ℚ
deriving DecidableEq, Repr

/-- The crop fields stored by `updateCrop`. -/
structure Crop where
  cropX : ℚ
  cropY : ℚ
  cropWidth : ℚ
  cropHeight : ℚ
deriving DecidableEq, Repr

/-- JavaScript truthiness of an optional string (`undefined` and `''` are
falsy). -/
def optTruthy : Option String → Bool
  | none => false
  | some s => !(s == "")

/-- `cellSize = 100 / gridColumns`. -/
def cellSizeOf (gridColumns : ℕ) : ℚ := 100 / gridColumns

/-- `Math.floor(100 / cellSize)`, the number of grid cells per axis, as used
by `addMultipleNFTs`, `fillBlankTiles` and `findEmptyPosition`. -/
def gridSizeOf (gridColumns : ℕ) : ℕ := (⌊(100 : ℚ) / cellSizeOf gridColumns⌋).toNat

/-- `snapToGridValue`: returns the value unchanged when snapping is off,
otherwise `Math.round(value / cellSize) * cellSize`. -/
def snapToGridValue (snap : Bool) (cellSize v : ℚ) : ℚ :=
  if !snap then v else ⌊v / cellSize + 1 / 2⌋ * cellSize

/-- The drag branch of `handleMouseMove`: position = initial geometry plus
pointer delta, snapped when snapping is on, then clamped to `[0, 100 − size]`
on both axes.  Returns the committed `(x, y)`. -/
def dragUpdate (snap : Bool) (cellSize initX initY size dx dy : ℚ) : ℚ × ℚ :=
  let newX := initX + dx
  let newY := initY + dy
  let newX := if snap then snapToGridValue snap cellSize newX else newX
  let newY := if snap then snapToGridValue snap cellSize newY else newY
  (max 0 (min (100 - size) newX), max 0 (min (100 - size) newY))

/-- The eight resize handles. -/
inductive ResizeDirection
  | n | s | e | w | ne | nw | se | sw
deriving DecidableEq, Repr

/-- The effective resize delta of `handleMouseMove`: the direction-adjusted
axis delta for edge handles, and `Math.max` of the two direction-adjusted
deltas for corner handles. -/
def effectiveDelta (dir : ResizeDirection) (dx dy : ℚ) : ℚ :=
  match dir with
  | .e => dx
  | .w => -dx
  | .s => dy
  | .n => -dy
  | .ne => max dx (-dy)
  | .nw => max (-dx) (-dy)
  | .se => max dx dy
  | .sw => max (-dx) dy

/-- The `if (resizeDirection.includes(...))` chain applying the effective
delta: handles containing `e` only change the size; otherwise handles
containing `w` (`w`, `nw`, `sw`) also shift `x` by `initialSize − newSize`;
otherwise the bare `s` handle only changes the size; the remaining `n`
handle shifts `y`. -/
def resizeRaw (x y size : ℚ) (dir : ResizeDirection) (eff : ℚ) : ℚ × ℚ × ℚ :=
  if dir = .e ∨ dir = .ne ∨ dir = .se then
    (x, y, size + eff)
  else if dir = .w ∨ dir = .nw ∨ dir = .sw then
    (x + size - (size + eff), y, size + eff)
  else if dir = .s then
    (x, y, size + eff)
  else
    (x, y + size - (size + eff), size + eff)

/-- The final bounds clamp of the resize branch: `newX = max(0, newX)`,
`newY = max(0, newY)`, then `newSize = min(100 − newX, 100 − newY, newSize)`
with the already-clamped positions. -/
def finalClamp (nx ny nsize : ℚ) : ℚ × ℚ × ℚ :=
  (max 0 nx, max 0 ny, min (100 - max 0 nx) (min (100 - max 0 ny) nsize))

/-- The resize branch of `handleMouseMove`: effective delta, direction
dispatch, minimum-size enforcement (`max cellSize`), optional snapping, and
the final bounds clamp, in source order.  Returns the committed
`(x, y, size)`. -/
def resizeUpdate (snap : Bool) (cellSize initX initY initSize : ℚ)
    (dir : ResizeDirection) (dx dy : ℚ) : ℚ × ℚ × ℚ :=
  let eff := effectiveDelta dir dx dy
  let raw := resizeRaw initX initY initSize dir eff
  let nsize := max cellSize raw.2.2
  let nx := if snap then snapToGridValue snap cellSize raw.1 else raw.1
  let ny := if snap then snapToGridValue snap cellSize raw.2.1 else raw.2.1
  let nsize := if snap then snapToGridValue snap cellSize nsize else nsize
  finalClamp nx ny nsize

/-- `moveActiveItem`'s geometry update for the active item: the nudged
position is clamped to `[0, 100 − size]` first and snapped afterwards when
snapping is on.  Returns the committed `(x, y)`. -/
def moveNudge (snap : Bool) (cellSize x y size dx dy : ℚ) : ℚ × ℚ :=
  let newX := max 0 (min (100 - size) (x + dx))
  let newY := max 0 (min (100 - size) (y + dy))
  ((if snap then snapToGridValue snap cellSize newX else newX),
   (if snap then snapToGridValue snap cellSize newY else newY))

/-- `resizeActiveItem`'s size update for the active item: `size + delta`
clamped to `[cellSize, min(100 − x, 100 − y)]` first and snapped afterwards
when snapping is on. -/
def resizeNudge (snap : Bool) (cellSize x y size delta : ℚ) : ℚ :=
  let newSize := max cellSize (min (100 - x) (min (100 - y) (size + delta)))
  if snap then snapToGridValue snap cellSize newSize else newSize

/-- `updateCrop`'s stored crop: `x`, `y` clamped to `[0, 100]`, width and
height clamped by `Math.max(10, Math.min(100 − crop, …))` where the upper
bound is computed from the unclamped input `cropX`/`cropY`. -/
def updateCropFields (cropX cropY cropWidth cropHeight : ℚ) : Crop :=
  { cropX := max 0 (min 100 cropX)
    cropY := max 0 (min 100 cropY)
    cropWidth := max 10 (min (100 - cropX) cropWidth)
    cropHeight := max 10 (min (100 - cropY) cropHeight) }

/-- `generateUniqueId`, whose `Date.now()`/`Math.random()` freshness is
modelled by a numeric seed. -/
def genId (seed : ℕ) : String := "nft-" ++ toString seed

/-- The cells of one item's footprint as computed by `findEmptyPosition` and
`fillBlankTiles`: bounding cells from `floor(x/cellSize)` to
`floor((x+size)/cellSize)` inclusive on both axes, keyed as
`(col, row)` pairs. -/
def itemFootprintKeys (cellSize : ℚ) (it : CanvasItem) : List (ℤ × ℤ) :=
  let startCol := ⌊it.x / cellSize⌋
  let startRow := ⌊it.y / cellSize⌋
  let endCol := ⌊(it.x + it.size) / cellSize⌋
  let endRow := ⌊(it.y + it.size) / cellSize⌋
  (List.range (endRow - startRow + 1).toNat).flatMap fun r =>
    (List.range (endCol - startCol + 1).toNat).map fun c =>
      (startCol + c, startRow + r)

/-- The default placement size of `findEmptyPosition`: `cellSize * 2`. -/
def defaultSizeOf (gridColumns : ℕ) : ℚ := cellSizeOf gridColumns * 2

/-- `Math.ceil(defaultSize / cellSize)`, the default placement's span in
cells. -/
def spanOf (gridColumns : ℕ) : ℕ :=
  (⌈defaultSizeOf gridColumns / cellSizeOf gridColumns⌉).toNat

/-- `Math.floor(100 / cellSize) - Math.ceil(defaultSize / cellSize) + 1`,
the exclusive bound of the row (and column) scan of `findEmptyPosition`. -/
def maxRowOf (gridColumns : ℕ) : ℕ :=
  ((gridSizeOf gridColumns : ℤ) - spanOf gridColumns + 1).toNat

/-- `findEmptyPosition`: build the occupied-cell set, scan candidate cells
row-major for the first block of `spanOf` × `spanOf` unoccupied cells, and
fall back to a random position when none is found.  `rand` is the pair of
`Math.random()` draws of the fallback. -/
def findEmptyPosition (gridColumns : ℕ) (items : List CanvasItem)
    (rand : ℚ × ℚ) : ℚ × ℚ × ℚ :=
  let cell := cellSizeOf gridColumns
  let occupied := items.flatMap (itemFootprintKeys cell)
  let span := spanOf gridColumns
  let candidates := (List.range (maxRowOf gridColumns)).flatMap fun row =>
    (List.range (maxRowOf gridColumns)).map fun col => (row, col)
  match candidates.find? (fun rc =>
      (List.range span).all fun r => (List.range span).all fun c =>
        !(occupied.contains ((rc.2 + c : ℕ), (rc.1 + r : ℕ)))) with
  | some rc => ((rc.2 : ℚ) * cell, (rc.1 : ℚ) * cell, defaultSizeOf gridColumns)
  | none => (rand.1 * (100 - defaultSizeOf gridColumns),
             rand.2 * (100 - defaultSizeOf gridColumns),
             defaultSizeOf gridColumns)

/-- The block-fit test of `addMultipleNFTs.tryPlaceNFT`: every cell of the
`m` × `m` block at `base` lies inside the grid and is still available. -/
def blockFits (cells : List (ℕ × ℕ)) (gridSize : ℕ) (base : ℕ × ℕ)
    (m : ℕ) : Bool :=
  (List.range m).all fun r => (List.range m).all fun c =>
    decide (base.1 + r < gridSize) && decide (base.2 + c < gridSize) &&
      cells.contains (base.1 + r, base.2 + c)

/-- Reserving a placed block: `addMultipleNFTs` splices every cell of the
block out of the available list (the cells are pairwise distinct, so this is
a filter that keeps the remaining cells in order). -/
def removeBlock (cells : List (ℕ × ℕ)) (base : ℕ × ℕ) (m : ℕ) :
    List (ℕ × ℕ) :=
  cells.filter fun ac =>
    !((List.range m).any fun r => (List.range m).any fun c =>
        ac == (base.1 + r, base.2 + c))

/-- `tryPlaceNFT` of `addMultipleNFTs`: attempt size tiers from `m` cells
down to 1; at each tier take the first available cell whose block fits,
reserve the block and emit the placed item.  The source computes the tier
bound as `isCollectionImage ? 3 : 3`; both branches are 3, and callers pass
3 here. -/
def tryPlaceNFT (gridSize : ℕ) (cellSize : ℚ) (nft : NFT) (index : ℕ) :
    ℕ → List (ℕ × ℕ) → Option (CanvasItem × List (ℕ × ℕ))
  | 0, _ => none
  | m + 1, cells =>
    match cells.find? (fun c => blockFits cells gridSize c (m + 1)) with
    | some base =>
      some ({ id := genId index
              nft := nft
              x := (base.2 : ℚ) * cellSize
              y := (base.1 : ℚ) * cellSize
              size := cellSize * ((m + 1 : ℕ) : ℚ)
              zIndex := (index : ℤ) + 1
              cropX := 0, cropY := 0, cropWidth := 100, cropHeight := 100 },
            removeBlock cells base (m + 1))
    | none => tryPlaceNFT gridSize cellSize nft index m cells

/-- The fill-up pass of `addMultipleNFTs`: while fewer than `minCount` items
exist and cells remain, shift the first available cell and place a forced
1 × 1 item there, recycling the shuffled input cyclically
(`shuffledNFTs[fillerIndex % length]`). -/
def fillLoop (cellSize : ℚ) (minCount : ℕ) (nfts : List NFT) :
    List (ℕ × ℕ) → List CanvasItem → ℕ → List CanvasItem
  | [], items, _ => items
  | c :: rest, items, fillerIndex =>
    if items.length < minCount then
      fillLoop cellSize minCount nfts rest
        (items ++ [{ id := genId (nfts.length + fillerIndex)
                     nft := nfts.getD (fillerIndex % nfts.length) default
                     x := (c.2 : ℚ) * cellSize
                     y := (c.1 : ℚ) * cellSize
                     size := cellSize
                     zIndex := (items.length : ℤ) + 1
                     cropX := 0, cropY := 0
                     cropWidth := 100, cropHeight := 100 }])
        (fillerIndex + 1)
    else items

/-- The complete grid-cell list built by `addMultipleNFTs` (and
`fillBlankTiles`): all `(row, col)` pairs in row-major order. -/
def allCells (gridSize : ℕ) : List (ℕ × ℕ) :=
  (List.range gridSize).flatMap fun row =>
    (List.range gridSize).map fun col => (row, col)

/-- One iteration of pass 1 of `addMultipleNFTs`: try to place the next
(indexed) input; on success reserve its cells and append the item, otherwise
leave the state alone. -/
def placeStep (gridSize : ℕ) (cellSize : ℚ)
    (st : List (ℕ × ℕ) × List CanvasItem) (en : ℕ × NFT) :
    List (ℕ × ℕ) × List CanvasItem :=
  match tryPlaceNFT gridSize cellSize en.2 en.1 3 st.1 with
  | some (item, rest) => (rest, st.2 ++ [item])
  | none => st

/-- The placement computation of `addMultipleNFTs`, parametrised by the grid
size and cell size: all grid cells are available, pass 1 places each input
in order (the input list stands for `shuffledNFTs`, i.e. it is taken in
post-shuffle order) at tiers 3 down to 1, pass 2 fills 1 × 1 items up to
`minCount`. -/
def addMultipleItemsCore (gridSize : ℕ) (cellSize : ℚ) (nfts : List NFT)
    (minCount : ℕ) : List CanvasItem :=
  let p1 := nfts.enum.foldl (placeStep gridSize cellSize) (allCells gridSize, [])
  fillLoop cellSize minCount nfts p1.1 p1.2 0

/-- The item list produced by `addMultipleNFTs` for a given column count. -/
def addMultipleItems (nfts : List NFT) (minCount : ℕ) (gridColumns : ℕ) :
    List CanvasItem :=
  addMultipleItemsCore (gridSizeOf gridColumns) (cellSizeOf gridColumns)
    nfts minCount

/-- The identity key of the `selectedNFTs` reconciliation effect of
`GridCanvas.tsx`: `contract-identifier` when both are truthy, else
`contract_address-token_id` when both are truthy, else the image URL, else
`'unknown'`. -/
def nftKey (n : NFT) : String :=
  if optTruthy n.contract && optTruthy n.identifier then
    n.contract.getD "" ++ "-" ++ n.identifier.getD ""
  else if optTruthy n.contract_address && optTruthy n.token_id then
    n.contract_address.getD "" ++ "-" ++ n.token_id.getD ""
  else
    match n.image_url with
    | some s => if s == "" then "unknown" else s
    | none => "unknown"

/-- The item built by `addNFT` for the current item list: placement from
`findEmptyPosition`, `zIndex = items.length + 1`, full-image crop. -/
def addNFTItem (items : List CanvasItem) (nft : NFT) (gridColumns : ℕ)
    (rand : ℚ × ℚ) (seed : ℕ) : CanvasItem :=
  let pos := findEmptyPosition gridColumns items rand
  { id := genId seed
    nft := nft
    x := pos.1
    y := pos.2.1
    size := pos.2.2
    zIndex := (items.length : ℤ) + 1
    cropX := 0, cropY := 0, cropWidth := 100, cropHeight := 100 }

/-- The `selectedNFTs` reconciliation effect: with a non-empty selection,
filter out the assets whose identity key is already present among the
current items, and add the remaining ones with `addNFT`.  Every `addNFT`
call of the effect's `forEach` closes over the same pre-effect `items`
state, so when several new assets arrive in one event the last `setItems`
write wins and only the final new asset's item is committed; with at most
one new asset (the cases below) this coincides with a plain append. -/
def reconcileSelected (items : List CanvasItem) (selected : List NFT)
    (gridColumns : ℕ) (rand : ℚ × ℚ) (seed : ℕ) : List CanvasItem :=
  if selected.isEmpty then items
  else
    let existing := items.map fun it => nftKey it.nft
    let newNFTs := selected.filter fun n => !(existing.contains (nftKey n))
    match newNFTs.getLast? with
    | none => items
    | some nft => items ++ [addNFTItem items nft gridColumns rand seed]

/-- The canvas state of `GridCanvas.tsx` relevant to the claims: the item
list, the active selection, the history with its index (initially `[]` and
`-1`), and the grid configuration. -/
structure CanvasState where
  items : List CanvasItem
  activeItem : Option String
  history : List (List CanvasItem)
  historyIndex : ℤ
  gridColumns : ℕ
  snapToGrid : Bool
deriving DecidableEq, Repr

/-- `saveToHistory`: when not at the end of history, truncate it to
`history.slice(0, historyIndex + 1)`; then append the new snapshot and
advance the index.  The two successive `setHistory` calls of the source
compose to exactly this net effect. -/
def saveToHistory (s : CanvasState) (newItems : List CanvasItem) :
    CanvasState :=
  let trimmed := if s.historyIndex < (s.history.length : ℤ) - 1 then
      s.history.take (s.historyIndex + 1).toNat
    else s.history
  { s with history := trimmed ++ [newItems],
           historyIndex := s.historyIndex + 1 }

/-- `undo`: when `historyIndex > 0`, step the index back and load that
snapshot; otherwise do nothing. -/
def undoState (s : CanvasState) : CanvasState :=
  if 0 < s.historyIndex then
    { s with historyIndex := s.historyIndex - 1,
             items := s.history.getD (s.historyIndex - 1).toNat [] }
  else s

/-- `redo`: when `historyIndex < history.length - 1`, step the index forward
and load that snapshot; otherwise do nothing. -/
def redoState (s : CanvasState) : CanvasState :=
  if s.historyIndex < (s.history.length : ℤ) - 1 then
    { s with historyIndex := s.historyIndex + 1,
             items := s.history.getD (s.historyIndex + 1).toNat [] }
  else s

/-- The shared shape of the committed mutations that pass their post-mutation
list to both `setItems` and `saveToHistory` (`addNFT`, `removeItem`,
`clearCanvas`, `addMultipleNFTs`, `fillBlankTiles`). -/
def commitItems (s : CanvasState) (newItems : List CanvasItem) :
    CanvasState :=
  saveToHistory { s with items := newItems } newItems

/-- `addNFT` at state level: build the item, append it, select it, commit. -/
def addNFTState (s : CanvasState) (nft : NFT) (rand : ℚ × ℚ) (seed : ℕ) :
    CanvasState :=
  let newItem := addNFTItem s.items nft s.gridColumns rand seed
  { commitItems s (s.items ++ [newItem]) with activeItem := some newItem.id }

/-- `removeItem` at state level: drop the item, clear the selection if it was
active, commit. -/
def removeItemState (s : CanvasState) (id : String) : CanvasState :=
  let s' := commitItems s (s.items.filter fun it => !(it.id == id))
  if s.activeItem = some id then { s' with activeItem := none } else s'

/-- `clearCanvas` at state level: empty the item list, clear the selection,
commit. -/
def clearCanvasState (s : CanvasState) : CanvasState :=
  { commitItems s [] with activeItem := none }

/-- `addMultipleNFTs` at state level: an empty input returns early;
otherwise the canvas is reset, the new placements computed and committed,
and the selection cleared. -/
def addMultipleState (s : CanvasState) (nfts : List NFT) (minCount : ℕ) :
    CanvasState :=
  if nfts.isEmpty then s
  else
    { commitItems s (addMultipleItems nfts minCount s.gridColumns) with
        activeItem := none }

/-- `moveActiveItem` at state level: with no active item nothing happens;
otherwise the active item's position is nudged and
`saveToHistory([...items])` runs — but `items` there is the pre-update state
value (the `setItems` call has not refreshed the closure), so the snapshot
pushed is the pre-mutation list. -/
def moveActiveItemState (s : CanvasState) (dx dy : ℚ) : CanvasState :=
  match s.activeItem with
  | none => s
  | some aid =>
    let cell := cellSizeOf s.gridColumns
    let items' := s.items.map fun it =>
      if it.id == aid then
        let p := moveNudge s.snapToGrid cell it.x it.y it.size dx dy
        { it with x := p.1, y := p.2 }
      else it
    saveToHistory { s with items := items' } s.items

/-! ### Basic facts about the grid configuration -/

lemma cellSizeOf_pos (cols : ℕ) (h : 0 < cols) : 0 < cellSizeOf cols := by
  have : (0 : ℚ) < cols := by exact_mod_cast h
  exact div_pos (by norm_num) this

lemma gridSizeOf_eq (cols : ℕ) (h : 0 < cols) : gridSizeOf cols = cols := by
  have hc : ((cols : ℚ)) ≠ 0 := by
    exact_mod_cast Nat.pos_iff_ne_zero.mp h
  unfold gridSizeOf cellSizeOf
  rw [show (100 : ℚ) / (100 / cols) = cols from by field_simp]
  rw [Int.floor_natCast, Int.toNat_natCast]

lemma spanOf_eq (cols : ℕ) (h : 0 < cols) : spanOf cols = 2 := by
  have hc : cellSizeOf cols ≠ 0 := ne_of_gt (cellSizeOf_pos cols h)
  unfold spanOf defaultSizeOf
  rw [show cellSizeOf cols * 2 / cellSizeOf cols = 2 from by field_simp]
  norm_num
  decide

lemma maxRowOf_eq (cols : ℕ) (h : 0 < cols) : maxRowOf cols = cols - 1 := by
  unfold maxRowOf
  rw [gridSizeOf_eq cols h, spanOf_eq cols h]
  omega

/-! ### The empty-canvas placement of `findEmptyPosition` -/

lemma findEmptyPosition_empty (cols : ℕ) (h2 : 2 ≤ cols) (rand : ℚ × ℚ) :
    findEmptyPosition cols [] rand = (0, 0, 2 * cellSizeOf cols) := by
  have h0 : 0 < cols := by omega
  obtain ⟨k, hk⟩ : ∃ k, maxRowOf cols = k + 1 :=
    ⟨cols - 2, by rw [maxRowOf_eq cols h0]; omega⟩
  unfold findEmptyPosition
  rw [spanOf_eq cols h0, hk, List.range_succ_eq_map]
  simp only [List.flatMap_cons, List.map_cons, List.cons_append,
    List.find?_cons]
  norm_num
  rw [show ((List.range 2).all fun r => (List.range 2).all fun c => true) = true
    from by decide]
  norm_num [defaultSizeOf]
  exact mul_comm _ _

/-- C8: for every grid column count offered by the canvas (the column
selector's options), `findEmptyPosition` applied to an empty item list
returns the placement `x = 0`, `y = 0`, `size = 2 × cellSize` with
`cellSize = 100 / columns`, whatever the random fallback draw would be. -/
theorem claim08_find_empty_slot (cols : ℕ) (rand : ℚ × ℚ)
    (h : cols ∈ [4, 6, 8, 10, 12, 16, 24]) :
    findEmptyPosition cols [] rand = (0, 0, 2 * cellSizeOf cols) := by
  fin_cases h <;> exact findEmptyPosition_empty _ (by norm_num) rand

/-- Witness for C8 at 12 columns. -/
theorem claim08_find_empty_slot_witness :
    12 ∈ [4, 6, 8, 10, 12, 16, 24] ∧
      findEmptyPosition 12 [] (37 / 100, 64 / 100) = (0, 0, 2 * cellSizeOf 12) :=
  ⟨by decide, claim08_find_empty_slot 12 (37 / 100, 64 / 100) (by decide)⟩

/-! ### Bounds of the committed geometry mutations -/

lemma finalClamp_bounds (a b m : ℚ) :
    0 ≤ (finalClamp a b m).1 ∧ 0 ≤ (finalClamp a b m).2.1 ∧
    (finalClamp a b m).1 + (finalClamp a b m).2.2 ≤ 100 ∧
    (finalClamp a b m).2.1 + (finalClamp a b m).2.2 ≤ 100 := by
  simp only [finalClamp]
  refine ⟨le_max_left _ _, le_max_left _ _, ?_, ?_⟩
  · have h1 : min (100 - max 0 a) (min (100 - max 0 b) m) ≤ 100 - max 0 a :=
      min_le_left _ _
    linarith
  · have h1 : min (100 - max 0 a) (min (100 - max 0 b) m) ≤
        min (100 - max 0 b) m := min_le_right _ _
    have h2 : min (100 - max 0 b) m ≤ 100 - max 0 b := min_le_left _ _
    linarith

/-- C1, counterexample: with snapping enabled, `moveActiveItem` snaps the
already-clamped position, which can round it outward: at 12 columns, an
item of size 20 nudged far to the right is clamped to `x = 80` and then
snapped to `x = 250/3 ≈ 83.33`, so `x + size > 100` for the committed
item. -/
theorem claim01_rest_invariant_counterexample :
    ¬((moveNudge true (cellSizeOf 12) 0 0 20 100 0).1 + 20 ≤ 100) := by
  norm_num [moveNudge, snapToGridValue, cellSizeOf, min_def, max_def]

/-- C1, amended: the at-rest invariant `0 ≤ x`, `0 ≤ y`, `x + size ≤ 100`,
`y + size ≤ 100` holds (1) after every drag commit, for any snapping setting
and cell size, provided the item's size is at most 100; (2) after every
resize commit, unconditionally; (3) after `moveActiveItem` when snapping is
disabled, provided the size is at most 100; (4) after `resizeActiveItem`
when snapping is disabled, provided the item's position lies in
`[0, 100 − cellSize]` on both axes.  With snapping enabled the two discrete
nudges can violate the invariant, because they snap after clamping. -/
theorem claim01_rest_invariant_amended :
    (∀ (snap : Bool) (cell x y size dx dy : ℚ), size ≤ 100 →
      0 ≤ (dragUpdate snap cell x y size dx dy).1 ∧
      0 ≤ (dragUpdate snap cell x y size dx dy).2 ∧
      (dragUpdate snap cell x y size dx dy).1 + size ≤ 100 ∧
      (dragUpdate snap cell x y size dx dy).2 + size ≤ 100) ∧
    (∀ (snap : Bool) (cell x y size : ℚ) (dir : ResizeDirection) (dx dy : ℚ),
      0 ≤ (resizeUpdate snap cell x y size dir dx dy).1 ∧
      0 ≤ (resizeUpdate snap cell x y size dir dx dy).2.1 ∧
      (resizeUpdate snap cell x y size dir dx dy).1
        + (resizeUpdate snap cell x y size dir dx dy).2.2 ≤ 100 ∧
      (resizeUpdate snap cell x y size dir dx dy).2.1
        + (resizeUpdate snap cell x y size dir dx dy).2.2 ≤ 100) ∧
    (∀ (cell x y size dx dy : ℚ), size ≤ 100 →
      0 ≤ (moveNudge false cell x y size dx dy).1 ∧
      0 ≤ (moveNudge false cell x y size dx dy).2 ∧
      (moveNudge false cell x y size dx dy).1 + size ≤ 100 ∧
      (moveNudge false cell x y size dx dy).2 + size ≤ 100) ∧
    (∀ (cell x y size delta : ℚ), 0 ≤ x → 0 ≤ y →
      x ≤ 100 - cell → y ≤ 100 - cell →
      0 ≤ x ∧ 0 ≤ y ∧
      x + resizeNudge false cell x y size delta ≤ 100 ∧
      y + resizeNudge false cell x y size delta ≤ 100) := by
  refine ⟨?_, ?_, ?_, ?_⟩
  · intro snap cell x y size dx dy hs
    simp only [dragUpdate]
    refine ⟨le_max_left _ _, le_max_left _ _, ?_, ?_⟩
    all_goals
      refine le_trans (add_le_add_right (max_le (by linarith) (min_le_left _ _)) _) ?_
      linarith
  · intro snap cell x y size dir dx dy
    exact finalClamp_bounds _ _ _
  · intro cell x y size dx dy hs
    simp only [moveNudge, Bool.false_eq_true, if_false]
    refine ⟨le_max_left _ _, le_max_left _ _, ?_, ?_⟩
    all_goals
      refine le_trans (add_le_add_right (max_le (by linarith) (min_le_left _ _)) _) ?_
      linarith
  · intro cell x y size delta hx hy hxc hyc
    refine ⟨hx, hy, ?_, ?_⟩
    · have h : resizeNudge false cell x y size delta ≤ 100 - x := by
        simp only [resizeNudge, Bool.false_eq_true, if_false]
        exact max_le (by linarith) (min_le_left _ _)
      linarith
    · have h : resizeNudge false cell x y size delta ≤ 100 - y := by
        simp only [resizeNudge, Bool.false_eq_true, if_false]
        exact max_le (by linarith)
          (le_trans (min_le_right _ _) (min_le_left _ _))
      linarith

/-- Witness for the amended C1, instantiating the `resizeActiveItem` part at
12 columns with the item at the origin. -/
theorem claim01_rest_invariant_amended_witness :
    (0 : ℚ) ≤ 0 ∧ (0 : ℚ) ≤ 100 - cellSizeOf 12 ∧
    (0 ≤ (0 : ℚ) ∧ 0 ≤ (0 : ℚ) ∧
      0 + resizeNudge false (cellSizeOf 12) 0 0 (50 / 3) 100 ≤ 100 ∧
      0 + resizeNudge false (cellSizeOf 12) 0 0 (50 / 3) 100 ≤ 100) :=
  ⟨le_refl 0, by norm_num [cellSizeOf],
    claim01_rest_invariant_amended.2.2.2 (cellSizeOf 12) 0 0 (50 / 3) 100
      (le_refl 0) (le_refl 0) (by norm_num [cellSizeOf]) (by norm_num [cellSizeOf])⟩

/-! ### Crop clamping -/

/-- C4, counterexample: `updateCrop` computes the width bound `100 − cropX`
from the unclamped input, so a call with `cropX = 95`, `cropWidth = 50`
stores `x = 95` and `width = max(10, min(5, 50)) = 10`, violating the
claimed `x + width ≤ 100`. -/
theorem claim04_update_crop_counterexample :
    ¬((updateCropFields 95 0 50 100).cropX +
        (updateCropFields 95 0 50 100).cropWidth ≤ 100) := by
  norm_num [updateCropFields, min_def, max_def]

/-- C4, amended: `updateCrop` stores `x, y ∈ [0, 100]` and
`width, height ≥ 10` unconditionally; the claimed `x + width ≤ 100`
(resp. `y + height ≤ 100`) holds when the input `cropX` (resp. `cropY`)
lies in `[0, 90]` — for larger inputs the forced minimum width of 10
overshoots the right edge.  The spec's example `x = 90, width = 50` is
indeed stored with `width = 10`. -/
theorem claim04_update_crop_amended (cx cy cw ch : ℚ) :
    0 ≤ (updateCropFields cx cy cw ch).cropX ∧
    (updateCropFields cx cy cw ch).cropX ≤ 100 ∧
    0 ≤ (updateCropFields cx cy cw ch).cropY ∧
    (updateCropFields cx cy cw ch).cropY ≤ 100 ∧
    10 ≤ (updateCropFields cx cy cw ch).cropWidth ∧
    10 ≤ (updateCropFields cx cy cw ch).cropHeight ∧
    (0 ≤ cx → cx ≤ 90 →
      (updateCropFields cx cy cw ch).cropX +
        (updateCropFields cx cy cw ch).cropWidth ≤ 100) ∧
    (0 ≤ cy → cy ≤ 90 →
      (updateCropFields cx cy cw ch).cropY +
        (updateCropFields cx cy cw ch).cropHeight ≤ 100) ∧
    (updateCropFields 90 cy 50 ch).cropWidth = 10 := by
  simp only [updateCropFields]
  refine ⟨le_max_left _ _,
    max_le (by norm_num) (min_le_left _ _),
    le_max_left _ _,
    max_le (by norm_num) (min_le_left _ _),
    le_max_left _ _, le_max_left _ _, ?_, ?_, ?_⟩
  · intro h0 h90
    rw [min_eq_right (by linarith), max_eq_right (by linarith)]
    have hw : max 10 (min (100 - cx) cw) ≤ 100 - cx :=
      max_le (by linarith) (min_le_left _ _)
    linarith
  · intro h0 h90
    rw [min_eq_right (by linarith), max_eq_right (by linarith)]
    have hw : max 10 (min (100 - cy) ch) ≤ 100 - cy :=
      max_le (by linarith) (min_le_left _ _)
    linarith
  · norm_num [min_def, max_def]

/-- Witness for the amended C4 at `cropX = 50`, `cropWidth = 200`. -/
theorem claim04_update_crop_amended_witness :
    (0 : ℚ) ≤ 50 ∧ (50 : ℚ) ≤ 90 ∧
    (updateCropFields 50 50 200 200).cropX +
      (updateCropFields 50 50 200 200).cropWidth ≤ 100 :=
  ⟨by norm_num, by norm_num,
    (claim04_update_crop_amended 50 50 200 200).2.2.2.2.2.2.1
      (by norm_num) (by norm_num)⟩

/-! ### Resize from the west handle, and corner deltas -/

/-- C5: evaluating the resize branch at a `w`-handle gesture that would
shrink the size to `50/3 − 20 < 0` (12 columns, snapping off, item at
`x = 0` with `size = 50/3`, pointer delta `+20`).  The committed size is
exactly one grid cell, but the east edge moves from `0 + 50/3` to
`20 + 25/3`: the code computes the shifted `x` from the unclamped size and
never re-anchors it after the minimum-size clamp. -/
lemma resizeRaw_w (x y s eff : ℚ) :
    resizeRaw x y s .w eff = (x + s - (s + eff), y, s + eff) := by
  unfold resizeRaw
  rw [if_neg (by decide), if_pos (by decide)]

theorem claim05_west_resize_bug :
    resizeUpdate false (cellSizeOf 12) 0 0 (50 / 3) .w 20 0
      = (20, 0, cellSizeOf 12) ∧
    (20 : ℚ) + cellSizeOf 12 ≠ 0 + 50 / 3 := by
  constructor
  · norm_num [resizeUpdate, resizeRaw_w, effectiveDelta, finalClamp,
      snapToGridValue, cellSizeOf, min_def, max_def]
  · norm_num [cellSizeOf]

/-- Modelled from the spec: the claimed corner rule picks whichever of the
two direction-adjusted axis deltas has the larger magnitude (absolute
value). -/
def specLargerMagnitudeDelta (a b : ℚ) : ℚ := if |b| ≤ |a| then a else b

/-- C6, counterexample: for the `se` handle with deltas `(-5, -10)` the code
uses `Math.max(-5, -10) = -5`, while the larger-magnitude rule of the claim
picks `-10`. -/
theorem claim06_corner_delta_counterexample :
    effectiveDelta .se (-5) (-10) = -5 ∧
    specLargerMagnitudeDelta (-5) (-10) = -10 ∧
    effectiveDelta .se (-5) (-10) ≠ specLargerMagnitudeDelta (-5) (-10) := by
  refine ⟨?_, ?_, ?_⟩ <;>
    norm_num [effectiveDelta, specLargerMagnitudeDelta, max_def]

/-- C6, amended: for every corner handle the effective resize delta is the
signed `Math.max` of the two direction-adjusted axis deltas — not the
larger-magnitude one; the two rules agree when both adjusted deltas are
nonnegative (outward diagonal drags), as illustrated for `se`. -/
theorem claim06_corner_delta_amended (dx dy : ℚ) :
    effectiveDelta .ne dx dy = max dx (-dy) ∧
    effectiveDelta .nw dx dy = max (-dx) (-dy) ∧
    effectiveDelta .se dx dy = max dx dy ∧
    effectiveDelta .sw dx dy = max (-dx) dy ∧
    (0 ≤ dx → 0 ≤ dy →
      effectiveDelta .se dx dy = specLargerMagnitudeDelta dx dy) := by
  refine ⟨rfl, rfl, rfl, rfl, ?_⟩
  intro hx hy
  simp only [effectiveDelta, specLargerMagnitudeDelta,
    abs_of_nonneg hx, abs_of_nonneg hy]
  rcases le_total dy dx with h | h
  · rw [max_eq_left h, if_pos h]
  · rcases eq_or_lt_of_le h with rfl | hlt
    · rw [max_self, if_pos le_rfl]
    · rw [max_eq_right h, if_neg (not_le.mpr hlt)]

/-- Witness for the amended C6 at the outward diagonal `(3, 7)`. -/
theorem claim06_corner_delta_amended_witness :
    (0 : ℚ) ≤ 3 ∧ (0 : ℚ) ≤ 7 ∧
    effectiveDelta .se 3 7 = specLargerMagnitudeDelta 3 7 :=
  ⟨by norm_num, by norm_num,
    (claim06_corner_delta_amended 3 7).2.2.2.2 (by norm_num) (by norm_num)⟩


/-! ### History: commits, undo, redo -/

lemma getD_append_left {α : Type} (l₁ l₂ : List α) (n : ℕ) (d : α)
    (h : n < l₁.length) : (l₁ ++ l₂).getD n d = l₁.getD n d := by
  simp [List.getD_eq_getElem?_getD, List.getElem?_append, h]

lemma getD_append_self {α : Type} (l₁ : List α) (a d : α) :
    (l₁ ++ [a]).getD l₁.length d = a := by
  simp [List.getD_eq_getElem?_getD,
    List.getElem?_append_right (le_refl l₁.length)]

lemma getD_take {α : Type} (l : List α) (m n : ℕ) (d : α) (h : n < m) :
    (l.take m).getD n d = l.getD n d := by
  simp [List.getD_eq_getElem?_getD, List.getElem?_take, h]

lemma undoState_items (t : CanvasState) (h : 0 < t.historyIndex) :
    (undoState t).items = t.history.getD (t.historyIndex - 1).toNat [] := by
  unfold undoState; rw [if_pos h]

lemma undoState_history (t : CanvasState) (h : 0 < t.historyIndex) :
    (undoState t).history = t.history := by
  unfold undoState; rw [if_pos h]

lemma undoState_index (t : CanvasState) (h : 0 < t.historyIndex) :
    (undoState t).historyIndex = t.historyIndex - 1 := by
  unfold undoState; rw [if_pos h]

lemma redoState_items (t : CanvasState)
    (h : t.historyIndex < (t.history.length : ℤ) - 1) :
    (redoState t).items = t.history.getD (t.historyIndex + 1).toNat [] := by
  unfold redoState; rw [if_pos h]

lemma redoState_noop (t : CanvasState)
    (h : ¬(t.historyIndex < (t.history.length : ℤ) - 1)) :
    redoState t = t := by
  unfold redoState; rw [if_neg h]

lemma saveToHistory_items (s : CanvasState) (live snapshot : List CanvasItem) :
    (saveToHistory { s with items := live } snapshot).items = live := by
  simp [saveToHistory]

lemma saveToHistory_index (s : CanvasState) (live snapshot : List CanvasItem) :
    (saveToHistory { s with items := live } snapshot).historyIndex
      = s.historyIndex + 1 := by
  simp [saveToHistory]

lemma saveToHistory_history (s : CanvasState) (live snapshot : List CanvasItem) :
    (saveToHistory { s with items := live } snapshot).history
      = (if s.historyIndex < (s.history.length : ℤ) - 1 then
          s.history.take (s.historyIndex + 1).toNat
        else s.history) ++ [snapshot] := by
  simp [saveToHistory]

lemma saveToHistory_getD_old (s : CanvasState) (live snapshot : List CanvasItem)
    (h0 : 0 ≤ s.historyIndex)
    (h1 : s.historyIndex < (s.history.length : ℤ)) :
    (saveToHistory { s with items := live } snapshot).history.getD
        s.historyIndex.toNat []
      = s.history.getD s.historyIndex.toNat [] := by
  rw [saveToHistory_history]
  split_ifs with h
  · rw [getD_append_left _ _ _ _ (by simp [List.length_take]; omega),
      getD_take _ _ _ _ (by omega)]
  · rw [getD_append_left _ _ _ _ (by omega)]

lemma saveToHistory_getD_new (s : CanvasState) (live snapshot : List CanvasItem)
    (h0 : 0 ≤ s.historyIndex)
    (h1 : s.historyIndex < (s.history.length : ℤ)) :
    (saveToHistory { s with items := live } snapshot).history.getD
        (s.historyIndex.toNat + 1) []
      = snapshot := by
  rw [saveToHistory_history]
  split_ifs with h
  · rw [show s.historyIndex.toNat + 1
        = (s.history.take (s.historyIndex + 1).toNat).length from by
          simp [List.length_take]; omega]
    exact getD_append_self _ _ _
  · rw [show s.historyIndex.toNat + 1 = s.history.length from by omega]
    exact getD_append_self _ _ _

lemma saveToHistory_len (s : CanvasState) (live snapshot : List CanvasItem)
    (h0 : 0 ≤ s.historyIndex)
    (h1 : s.historyIndex < (s.history.length : ℤ)) :
    ((saveToHistory { s with items := live } snapshot).history.length : ℤ)
      = s.historyIndex + 2 := by
  rw [saveToHistory_history]
  split_ifs with h <;> simp [List.length_take] <;> omega

lemma undo_after_save (s : CanvasState) (live snapshot : List CanvasItem)
    (h0 : 0 ≤ s.historyIndex)
    (h1 : s.historyIndex < (s.history.length : ℤ))
    (hsnap : s.history.getD s.historyIndex.toNat [] = s.items) :
    (undoState (saveToHistory { s with items := live } snapshot)).items
      = s.items := by
  have hidx := saveToHistory_index s live snapshot
  rw [undoState_items _ (by rw [hidx]; omega), hidx,
    show (s.historyIndex + 1 - 1).toNat = s.historyIndex.toNat from by omega,
    saveToHistory_getD_old s live snapshot h0 h1, hsnap]

lemma redo_after_undo_save (s : CanvasState) (live snapshot : List CanvasItem)
    (h0 : 0 ≤ s.historyIndex)
    (h1 : s.historyIndex < (s.history.length : ℤ)) :
    (redoState (undoState (saveToHistory { s with items := live } snapshot))).items
      = snapshot := by
  have hidx := saveToHistory_index s live snapshot
  have hlen := saveToHistory_len s live snapshot h0 h1
  have hpos : 0 < (saveToHistory { s with items := live } snapshot).historyIndex := by
    rw [hidx]; omega
  have hu_idx := undoState_index _ hpos
  have hu_hist := undoState_history _ hpos
  rw [redoState_items _ (by rw [hu_idx, hu_hist, hidx, hlen]; omega)]
  rw [hu_hist, hu_idx, hidx,
    show (s.historyIndex + 1 - 1 + 1).toNat = s.historyIndex.toNat + 1 from by
      omega,
    saveToHistory_getD_new s live snapshot h0 h1]

/-- A sample asset for the concrete history scenarios. -/
def sampleNFT : NFT :=
  { id := some "1", name := some "One", image_url := some "u1",
    collection := none, contract := none, identifier := none,
    contract_address := none, token_id := none, is_collection_image := false }

/-- A sample placed tile. -/
def sampleItem : CanvasItem :=
  { id := "item-1", nft := sampleNFT, x := 0, y := 0, size := 50, zIndex := 1,
    cropX := 0, cropY := 0, cropWidth := 100, cropHeight := 100 }

/-- The initial canvas state: no items, empty history, index −1. -/
def freshState : CanvasState :=
  { items := [], activeItem := none, history := [], historyIndex := -1,
    gridColumns := 12, snapToGrid := true }

/-- A state whose only committed snapshot matches the live list. -/
def sampleState : CanvasState :=
  { items := [sampleItem], activeItem := some "item-1",
    history := [[sampleItem]], historyIndex := 0,
    gridColumns := 12, snapToGrid := true }

/-- A state reached by one undo: the index points before the history end. -/
def undoneState : CanvasState :=
  { items := [sampleItem], activeItem := none,
    history := [[sampleItem], []], historyIndex := 0,
    gridColumns := 12, snapToGrid := false }

/-- C2, counterexample: on a fresh canvas the very first committed mutation
(an `addNFT`) pushes only the post-mutation snapshot — the pre-mutation
empty list is never recorded and `historyIndex` becomes 0 — so the guarded
`undo` is a no-op and does not restore the prior (empty) item list. -/
theorem claim02_undo_redo_counterexample :
    undoState (addNFTState freshState sampleNFT (0, 0) 0)
      = addNFTState freshState sampleNFT (0, 0) 0 ∧
    (addNFTState freshState sampleNFT (0, 0) 0).items ≠ freshState.items := by
  constructor
  · rfl
  · decide

/-- C2, amended: provided some snapshot is already committed
(`0 ≤ historyIndex < history.length`) and the live list matches the current
snapshot, a committed mutation that records its post-mutation list (`addNFT`,
`removeItem`, `clearCanvas`, `addMultipleNFTs` all commit through
`commitItems`) satisfies the claim: `undo` right after it restores the
pre-mutation item list and `redo` after that `undo` restores the
post-mutation list.  For the discrete nudge `moveActiveItem` the snapshot
pushed is the stale pre-mutation list, so only the `undo` half survives
(and, symmetrically, its redo would return the pre-mutation list).  The
first committed mutation of a session has no recorded predecessor and
cannot be undone at all. -/
theorem claim02_undo_redo_amended :
    (∀ (s : CanvasState) (newItems : List CanvasItem),
      0 ≤ s.historyIndex → s.historyIndex < (s.history.length : ℤ) →
      s.history.getD s.historyIndex.toNat [] = s.items →
      (commitItems s newItems).items = newItems ∧
      (undoState (commitItems s newItems)).items = s.items ∧
      (redoState (undoState (commitItems s newItems))).items = newItems) ∧
    (∀ (s : CanvasState) (aid : String) (dx dy : ℚ),
      s.activeItem = some aid →
      0 ≤ s.historyIndex → s.historyIndex < (s.history.length : ℤ) →
      s.history.getD s.historyIndex.toNat [] = s.items →
      (undoState (moveActiveItemState s dx dy)).items = s.items) := by
  constructor
  · intro s ni h0 h1 hsnap
    exact ⟨saveToHistory_items s ni ni, undo_after_save s ni ni h0 h1 hsnap,
      redo_after_undo_save s ni ni h0 h1⟩
  · intro s aid dx dy hact h0 h1 hsnap
    have hm : moveActiveItemState s dx dy
        = saveToHistory { s with items := s.items.map fun it =>
            if it.id == aid then
              let p := moveNudge s.snapToGrid (cellSizeOf s.gridColumns)
                it.x it.y it.size dx dy
              { it with x := p.1, y := p.2 }
            else it } s.items := by
      unfold moveActiveItemState
      rw [hact]
    rw [hm]
    exact undo_after_save s _ s.items h0 h1 hsnap

/-- Witness for the amended C2: a committed `clearCanvas`-style mutation on
`sampleState` is undone and redone exactly. -/
theorem claim02_undo_redo_amended_witness :
    (0 : ℤ) ≤ sampleState.historyIndex ∧
    sampleState.historyIndex < (sampleState.history.length : ℤ) ∧
    sampleState.history.getD sampleState.historyIndex.toNat []
      = sampleState.items ∧
    ((commitItems sampleState []).items = [] ∧
      (undoState (commitItems sampleState [])).items = sampleState.items ∧
      (redoState (undoState (commitItems sampleState []))).items = []) :=
  ⟨by decide, by decide, rfl,
    claim02_undo_redo_amended.1 sampleState [] (by decide) (by decide) rfl⟩

/-- C7: committing after one or more undos first truncates every history
entry after the current index, and `redo` immediately after the new commit
is a no-op. -/
theorem claim07_history_truncation (s : CanvasState) (ni : List CanvasItem)
    (h0 : 0 ≤ s.historyIndex)
    (h1 : s.historyIndex < (s.history.length : ℤ) - 1) :
    (commitItems s ni).history
      = s.history.take (s.historyIndex + 1).toNat ++ [ni] ∧
    redoState (commitItems s ni) = commitItems s ni := by
  constructor
  · have h := saveToHistory_history s ni ni
    rw [if_pos h1] at h
    exact h
  · apply redoState_noop
    rw [show (commitItems s ni).historyIndex = s.historyIndex + 1 from
        saveToHistory_index s ni ni,
      show ((commitItems s ni).history.length : ℤ) = s.historyIndex + 2 from
        saveToHistory_len s ni ni h0 (by omega)]
    omega

/-- Witness for C7 on a state with one available redo entry. -/
theorem claim07_history_truncation_witness :
    (0 : ℤ) ≤ undoneState.historyIndex ∧
    undoneState.historyIndex < (undoneState.history.length : ℤ) - 1 ∧
    ((commitItems undoneState [sampleItem, sampleItem]).history
        = undoneState.history.take (undoneState.historyIndex + 1).toNat
          ++ [[sampleItem, sampleItem]] ∧
      redoState (commitItems undoneState [sampleItem, sampleItem])
        = commitItems undoneState [sampleItem, sampleItem]) :=
  ⟨by decide, by decide,
    claim07_history_truncation undoneState [sampleItem, sampleItem]
      (by decide) (by decide)⟩

/-! ### Reconciliation of external selections -/

/-- C9: an asset pushed in an earlier external-selection event and added to
the canvas is not added again when a later event pushes it once more: the
first event appends exactly one item carrying its identity key, and the
second event leaves the item list unchanged — one canvas item per distinct
identity key. -/
theorem claim09_reconciliation (items0 : List CanvasItem) (a : NFT)
    (cols : ℕ) (r₁ r₂ : ℚ × ℚ) (k₁ k₂ : ℕ)
    (hnew : ∀ it ∈ items0, nftKey it.nft ≠ nftKey a) :
    reconcileSelected items0 [a] cols r₁ k₁
      = items0 ++ [addNFTItem items0 a cols r₁ k₁] ∧
    ((reconcileSelected items0 [a] cols r₁ k₁).filter
        (fun it => nftKey it.nft == nftKey a)).length = 1 ∧
    reconcileSelected (reconcileSelected items0 [a] cols r₁ k₁) [a] cols r₂ k₂
      = reconcileSelected items0 [a] cols r₁ k₁ := by
  have hmem : nftKey a ∉ items0.map fun it => nftKey it.nft := by
    simp only [List.mem_map]
    rintro ⟨it, hit, he⟩
    exact hnew it hit he
  have hc : ((items0.map fun it => nftKey it.nft).contains (nftKey a))
      = false := by
    simpa using hmem
  have h1 : reconcileSelected items0 [a] cols r₁ k₁
      = items0 ++ [addNFTItem items0 a cols r₁ k₁] := by
    unfold reconcileSelected
    simp [hc]
    rw [if_pos (fun x hx => hnew x hx)]
  refine ⟨h1, ?_, ?_⟩
  · rw [h1, List.filter_append]
    have hfil : items0.filter (fun it => nftKey it.nft == nftKey a) = [] := by
      rw [List.filter_eq_nil_iff]
      intro it hit
      simpa using hnew it hit
    rw [hfil]
    simp [addNFTItem]
  · rw [h1]
    unfold reconcileSelected
    simp only [List.isEmpty_cons, List.filter_cons, List.filter_nil]
    simp
    rw [if_neg (by rintro ⟨-, hbad⟩; exact hbad rfl)]
    rfl

/-- Witness for C9: pushing the sample asset twice on an empty canvas. -/
theorem claim09_reconciliation_witness :
    (∀ it ∈ ([] : List CanvasItem), nftKey it.nft ≠ nftKey sampleNFT) ∧
    (reconcileSelected [] [sampleNFT] 12 (0, 0) 0
        = [] ++ [addNFTItem [] sampleNFT 12 (0, 0) 0] ∧
      ((reconcileSelected [] [sampleNFT] 12 (0, 0) 0).filter
          (fun it => nftKey it.nft == nftKey sampleNFT)).length = 1 ∧
      reconcileSelected (reconcileSelected [] [sampleNFT] 12 (0, 0) 0)
          [sampleNFT] 12 (1, 1) 1
        = reconcileSelected [] [sampleNFT] 12 (0, 0) 0) :=
  ⟨by simp,
    claim09_reconciliation [] sampleNFT 12 (0, 0) (1, 1) 0 1 (by simp)⟩

/-! ### Bulk placement replaces the canvas -/

/-- C10: for every non-empty input, `addMultipleNFTs` replaces the whole
canvas: the resulting items are exactly the freshly computed placements
(independent of whatever was on the canvas before), and the active
selection is cleared. -/
theorem claim10_bulk_replaces (s : CanvasState) (nfts : List NFT) (mc : ℕ)
    (h : nfts ≠ []) :
    (addMultipleState s nfts mc).items
      = addMultipleItems nfts mc s.gridColumns ∧
    (addMultipleState s nfts mc).activeItem = none ∧
    (∀ (items0 : List CanvasItem) (act : Option String),
      (addMultipleState { s with items := items0, activeItem := act }
          nfts mc).items
        = (addMultipleState s nfts mc).items) := by
  have hne : nfts.isEmpty = false := by
    cases nfts
    · exact absurd rfl h
    · rfl
  refine ⟨?_, ?_, ?_⟩
  · simp [addMultipleState, hne, commitItems, saveToHistory]
  · simp [addMultipleState, hne]
  · intro items0 act
    simp [addMultipleState, hne, commitItems, saveToHistory]

/-- Witness for C10 with one asset on the populated sample state. -/
theorem claim10_bulk_replaces_witness :
    [sampleNFT] ≠ ([] : List NFT) ∧
    ((addMultipleState sampleState [sampleNFT] 3).items
        = addMultipleItems [sampleNFT] 3 sampleState.gridColumns ∧
      (addMultipleState sampleState [sampleNFT] 3).activeItem = none ∧
      (∀ (items0 : List CanvasItem) (act : Option String),
        (addMultipleState
            { sampleState with items := items0, activeItem := act }
            [sampleNFT] 3).items
          = (addMultipleState sampleState [sampleNFT] 3).items)) :=
  ⟨by decide, claim10_bulk_replaces sampleState [sampleNFT] 3 (by decide)⟩

/-! ### Cell footprints of placements -/

/-- The grid cells covered by an item's square: the `(row, col)` cells whose
half-open cell square meets `[x, x + size) × [y, y + size)`. -/
def cellsOfItem (gridColumns : ℕ) (it : CanvasItem) : List (ℕ × ℕ) :=
  (allCells (gridSizeOf gridColumns)).filter fun rc =>
    decide ((rc.2 : ℚ) * cellSizeOf gridColumns < it.x + it.size) &&
    decide (it.x < ((rc.2 : ℚ) + 1) * cellSizeOf gridColumns) &&
    decide ((rc.1 : ℚ) * cellSizeOf gridColumns < it.y + it.size) &&
    decide (it.y < ((rc.1 : ℚ) + 1) * cellSizeOf gridColumns)

/-- The footprint of a grid-aligned `m × m` block at cell `(r, c)`, computed
purely on cell indices. -/
def natFootprint (gridSize c r m : ℕ) : List (ℕ × ℕ) :=
  (allCells gridSize).filter fun rc =>
    decide (rc.2 < c + m) && decide (c ≤ rc.2) &&
    decide (rc.1 < r + m) && decide (r ≤ rc.1)

/-- Pairwise disjointness of the cell footprints of a list of items. -/
def pairwiseDisjointFootprints (gridColumns : ℕ) : List CanvasItem → Bool
  | [] => true
  | it :: rest =>
    (rest.all fun jt => (cellsOfItem gridColumns it).all fun c0 =>
      !((cellsOfItem gridColumns jt).contains c0)) &&
    pairwiseDisjointFootprints gridColumns rest

lemma cast_mul_lt_cast_mul (cell : ℚ) (hcell : 0 < cell) (p q : ℕ) :
    ((p : ℚ) * cell < (q : ℚ) * cell) ↔ p < q := by
  rw [mul_lt_mul_right hcell, Nat.cast_lt]

/-- The footprint of an item placed at `(c, r)` cells with size `m` cells is
the `m × m` block of cells there. -/
lemma cellsOfItem_aligned (cols : ℕ) (h : 0 < cols) (idv : String) (nf : NFT)
    (c r m : ℕ) (zi : ℤ) (q1 q2 q3 q4 : ℚ) :
    cellsOfItem cols
      { id := idv, nft := nf, x := (c : ℚ) * cellSizeOf cols,
        y := (r : ℚ) * cellSizeOf cols, size := cellSizeOf cols * (m : ℚ),
        zIndex := zi, cropX := q1, cropY := q2,
        cropWidth := q3, cropHeight := q4 }
      = natFootprint (gridSizeOf cols) c r m := by
  have hcell := cellSizeOf_pos cols h
  unfold cellsOfItem natFootprint
  apply List.filter_congr
  intro rc _
  have e1 : ((rc.2 : ℚ) * cellSizeOf cols
      < (c : ℚ) * cellSizeOf cols + cellSizeOf cols * (m : ℚ))
      ↔ rc.2 < c + m := by
    rw [show (c : ℚ) * cellSizeOf cols + cellSizeOf cols * (m : ℚ)
        = ((c + m : ℕ) : ℚ) * cellSizeOf cols from by push_cast; ring]
    exact cast_mul_lt_cast_mul _ hcell _ _
  have e2 : ((c : ℚ) * cellSizeOf cols
      < ((rc.2 : ℚ) + 1) * cellSizeOf cols) ↔ c ≤ rc.2 := by
    rw [show ((rc.2 : ℚ) + 1) = ((rc.2 + 1 : ℕ) : ℚ) from by push_cast; ring]
    rw [cast_mul_lt_cast_mul _ hcell, Nat.lt_add_one_iff]
  have e3 : ((rc.1 : ℚ) * cellSizeOf cols
      < (r : ℚ) * cellSizeOf cols + cellSizeOf cols * (m : ℚ))
      ↔ rc.1 < r + m := by
    rw [show (r : ℚ) * cellSizeOf cols + cellSizeOf cols * (m : ℚ)
        = ((r + m : ℕ) : ℚ) * cellSizeOf cols from by push_cast; ring]
    exact cast_mul_lt_cast_mul _ hcell _ _
  have e4 : ((r : ℚ) * cellSizeOf cols
      < ((rc.1 : ℚ) + 1) * cellSizeOf cols) ↔ r ≤ rc.1 := by
    rw [show ((rc.1 : ℚ) + 1) = ((rc.1 + 1 : ℕ) : ℚ) from by push_cast; ring]
    rw [cast_mul_lt_cast_mul _ hcell, Nat.lt_add_one_iff]
  rw [decide_eq_decide.mpr e1, decide_eq_decide.mpr e2,
    decide_eq_decide.mpr e3, decide_eq_decide.mpr e4]

/-- The footprint of a 1 × 1 item placed at cell `(c, r)`. -/
lemma cellsOfItem_aligned_one (cols : ℕ) (h : 0 < cols) (idv : String)
    (nf : NFT) (c r : ℕ) (zi : ℤ) (q1 q2 q3 q4 : ℚ) :
    cellsOfItem cols
      { id := idv, nft := nf, x := (c : ℚ) * cellSizeOf cols,
        y := (r : ℚ) * cellSizeOf cols, size := cellSizeOf cols,
        zIndex := zi, cropX := q1, cropY := q2,
        cropWidth := q3, cropHeight := q4 }
      = natFootprint (gridSizeOf cols) c r 1 := by
  have h1 : cellsOfItem cols
      { id := idv, nft := nf, x := (c : ℚ) * cellSizeOf cols,
        y := (r : ℚ) * cellSizeOf cols, size := cellSizeOf cols,
        zIndex := zi, cropX := q1, cropY := q2,
        cropWidth := q3, cropHeight := q4 }
      = cellsOfItem cols
      { id := idv, nft := nf, x := (c : ℚ) * cellSizeOf cols,
        y := (r : ℚ) * cellSizeOf cols, size := cellSizeOf cols * ((1 : ℕ) : ℚ),
        zIndex := zi, cropX := q1, cropY := q2,
        cropWidth := q3, cropHeight := q4 } := by
    norm_num
  rw [h1, cellsOfItem_aligned cols h]


/-! ### The concrete 12-column packing run of C3 -/

/-- The available cells before any placement of the 12-column packing run. -/
def packCells0 : List (ℕ × ℕ) :=
  [(0, 0), (0, 1), (0, 2), (0, 3), (0, 4), (0, 5), (0, 6), (0, 7), (0, 8), (0, 9), (0, 10),
   (0, 11), (1, 0), (1, 1), (1, 2), (1, 3), (1, 4), (1, 5), (1, 6), (1, 7), (1, 8), (1, 9),
   (1, 10), (1, 11), (2, 0), (2, 1), (2, 2), (2, 3), (2, 4), (2, 5), (2, 6), (2, 7), (2, 8),
   (2, 9), (2, 10), (2, 11), (3, 0), (3, 1), (3, 2), (3, 3), (3, 4), (3, 5), (3, 6), (3, 7),
   (3, 8), (3, 9), (3, 10), (3, 11), (4, 0), (4, 1), (4, 2), (4, 3), (4, 4), (4, 5), (4, 6),
   (4, 7), (4, 8), (4, 9), (4, 10), (4, 11), (5, 0), (5, 1), (5, 2), (5, 3), (5, 4), (5, 5),
   (5, 6), (5, 7), (5, 8), (5, 9), (5, 10), (5, 11), (6, 0), (6, 1), (6, 2), (6, 3), (6, 4),
   (6, 5), (6, 6), (6, 7), (6, 8), (6, 9), (6, 10), (6, 11), (7, 0), (7, 1), (7, 2), (7, 3),
   (7, 4), (7, 5), (7, 6), (7, 7), (7, 8), (7, 9), (7, 10), (7, 11), (8, 0), (8, 1), (8, 2),
   (8, 3), (8, 4), (8, 5), (8, 6), (8, 7), (8, 8), (8, 9), (8, 10), (8, 11), (9, 0), (9, 1),
   (9, 2), (9, 3), (9, 4), (9, 5), (9, 6), (9, 7), (9, 8), (9, 9), (9, 10), (9, 11), (10, 0),
   (10, 1), (10, 2), (10, 3), (10, 4), (10, 5), (10, 6), (10, 7), (10, 8), (10, 9), (10, 10),
   (10, 11), (11, 0), (11, 1), (11, 2), (11, 3), (11, 4), (11, 5), (11, 6), (11, 7), (11, 8),
   (11, 9), (11, 10), (11, 11)]

/-- The available cells after placement 1 of the 12-column packing run. -/
def packCells1 : List (ℕ × ℕ) :=
  [(0, 3), (0, 4), (0, 5), (0, 6), (0, 7), (0, 8), (0, 9), (0, 10), (0, 11), (1, 3), (1, 4),
   (1, 5), (1, 6), (1, 7), (1, 8), (1, 9), (1, 10), (1, 11), (2, 3), (2, 4), (2, 5), (2, 6),
   (2, 7), (2, 8), (2, 9), (2, 10), (2, 11), (3, 0), (3, 1), (3, 2), (3, 3), (3, 4), (3, 5),
   (3, 6), (3, 7), (3, 8), (3, 9), (3, 10), (3, 11), (4, 0), (4, 1), (4, 2), (4, 3), (4, 4),
   (4, 5), (4, 6), (4, 7), (4, 8), (4, 9), (4, 10), (4, 11), (5, 0), (5, 1), (5, 2), (5, 3),
   (5, 4), (5, 5), (5, 6), (5, 7), (5, 8), (5, 9), (5, 10), (5, 11), (6, 0), (6, 1), (6, 2),
   (6, 3), (6, 4), (6, 5), (6, 6), (6, 7), (6, 8), (6, 9), (6, 10), (6, 11), (7, 0), (7, 1),
   (7, 2), (7, 3), (7, 4), (7, 5), (7, 6), (7, 7), (7, 8), (7, 9), (7, 10), (7, 11), (8, 0),
   (8, 1), (8, 2), (8, 3), (8, 4), (8, 5), (8, 6), (8, 7), (8, 8), (8, 9), (8, 10), (8, 11),
   (9, 0), (9, 1), (9, 2), (9, 3), (9, 4), (9, 5), (9, 6), (9, 7), (9, 8), (9, 9), (9, 10),
   (9, 11), (10, 0), (10, 1), (10, 2), (10, 3), (10, 4), (10, 5), (10, 6), (10, 7), (10, 8),
   (10, 9), (10, 10), (10, 11), (11, 0), (11, 1), (11, 2), (11, 3), (11, 4), (11, 5), (11, 6),
   (11, 7), (11, 8), (11, 9), (11, 10), (11, 11)]

/-- The available cells after placement 2 of the 12-column packing run. -/
def packCells2 : List (ℕ × ℕ) :=
  [(0, 6), (0, 7), (0, 8), (0, 9), (0, 10), (0, 11), (1, 6), (1, 7), (1, 8), (1, 9), (1, 10),
   (1, 11), (2, 6), (2, 7), (2, 8), (2, 9), (2, 10), (2, 11), (3, 0), (3, 1), (3, 2), (3, 3),
   (3, 4), (3, 5), (3, 6), (3, 7), (3, 8), (3, 9), (3, 10), (3, 11), (4, 0), (4, 1), (4, 2),
   (4, 3), (4, 4), (4, 5), (4, 6), (4, 7), (4, 8), (4, 9), (4, 10), (4, 11), (5, 0), (5, 1),
   (5, 2), (5, 3), (5, 4), (5, 5), (5, 6), (5, 7), (5, 8), (5, 9), (5, 10), (5, 11), (6, 0),
   (6, 1), (6, 2), (6, 3), (6, 4), (6, 5), (6, 6), (6, 7), (6, 8), (6, 9), (6, 10), (6, 11),
   (7, 0), (7, 1), (7, 2), (7, 3), (7, 4), (7, 5), (7, 6), (7, 7), (7, 8), (7, 9), (7, 10),
   (7, 11), (8, 0), (8, 1), (8, 2), (8, 3), (8, 4), (8, 5), (8, 6), (8, 7), (8, 8), (8, 9),
   (8, 10), (8, 11), (9, 0), (9, 1), (9, 2), (9, 3), (9, 4), (9, 5), (9, 6), (9, 7), (9, 8),
   (9, 9), (9, 10), (9, 11), (10, 0), (10, 1), (10, 2), (10, 3), (10, 4), (10, 5), (10, 6),
   (10, 7), (10, 8), (10, 9), (10, 10), (10, 11), (11, 0), (11, 1), (11, 2), (11, 3), (11, 4),
   (11, 5), (11, 6), (11, 7), (11, 8), (11, 9), (11, 10), (11, 11)]

/-- The available cells after placement 3 of the 12-column packing run. -/
def packCells3 : List (ℕ × ℕ) :=
  [(0, 9), (0, 10), (0, 11), (1, 9), (1, 10), (1, 11), (2, 9), (2, 10), (2, 11), (3, 0), (3, 1),
   (3, 2), (3, 3), (3, 4), (3, 5), (3, 6), (3, 7), (3, 8), (3, 9), (3, 10), (3, 11), (4, 0),
   (4, 1), (4, 2), (4, 3), (4, 4), (4, 5), (4, 6), (4, 7), (4, 8), (4, 9), (4, 10), (4, 11),
   (5, 0), (5, 1), (5, 2), (5, 3), (5, 4), (5, 5), (5, 6), (5, 7), (5, 8), (5, 9), (5, 10),
   (5, 11), (6, 0), (6, 1), (6, 2), (6, 3), (6, 4), (6, 5), (6, 6), (6, 7), (6, 8), (6, 9),
   (6, 10), (6, 11), (7, 0), (7, 1), (7, 2), (7, 3), (7, 4), (7, 5), (7, 6), (7, 7), (7, 8),
   (7, 9), (7, 10), (7, 11), (8, 0), (8, 1), (8, 2), (8, 3), (8, 4), (8, 5), (8, 6), (8, 7),
   (8, 8), (8, 9), (8, 10), (8, 11), (9, 0), (9, 1), (9, 2), (9, 3), (9, 4), (9, 5), (9, 6),
   (9, 7), (9, 8), (9, 9), (9, 10), (9, 11), (10, 0), (10, 1), (10, 2), (10, 3), (10, 4), (10, 5),
   (10, 6), (10, 7), (10, 8), (10, 9), (10, 10), (10, 11), (11, 0), (11, 1), (11, 2), (11, 3),
   (11, 4), (11, 5), (11, 6), (11, 7), (11, 8), (11, 9), (11, 10), (11, 11)]

/-- The available cells after placement 4 of the 12-column packing run. -/
def packCells4 : List (ℕ × ℕ) :=
  [(3, 0), (3, 1), (3, 2), (3, 3), (3, 4), (3, 5), (3, 6), (3, 7), (3, 8), (3, 9), (3, 10),
   (3, 11), (4, 0), (4, 1), (4, 2), (4, 3), (4, 4), (4, 5), (4, 6), (4, 7), (4, 8), (4, 9),
   (4, 10), (4, 11), (5, 0), (5, 1), (5, 2), (5, 3), (5, 4), (5, 5), (5, 6), (5, 7), (5, 8),
   (5, 9), (5, 10), (5, 11), (6, 0), (6, 1), (6, 2), (6, 3), (6, 4), (6, 5), (6, 6), (6, 7),
   (6, 8), (6, 9), (6, 10), (6, 11), (7, 0), (7, 1), (7, 2), (7, 3), (7, 4), (7, 5), (7, 6),
   (7, 7), (7, 8), (7, 9), (7, 10), (7, 11), (8, 0), (8, 1), (8, 2), (8, 3), (8, 4), (8, 5),
   (8, 6), (8, 7), (8, 8), (8, 9), (8, 10), (8, 11), (9, 0), (9, 1), (9, 2), (9, 3), (9, 4),
   (9, 5), (9, 6), (9, 7), (9, 8), (9, 9), (9, 10), (9, 11), (10, 0), (10, 1), (10, 2), (10, 3),
   (10, 4), (10, 5), (10, 6), (10, 7), (10, 8), (10, 9), (10, 10), (10, 11), (11, 0), (11, 1),
   (11, 2), (11, 3), (11, 4), (11, 5), (11, 6), (11, 7), (11, 8), (11, 9), (11, 10), (11, 11)]

/-- The available cells after placement 5 of the 12-column packing run. -/
def packCells5 : List (ℕ × ℕ) :=
  [(3, 3), (3, 4), (3, 5), (3, 6), (3, 7), (3, 8), (3, 9), (3, 10), (3, 11), (4, 3), (4, 4),
   (4, 5), (4, 6), (4, 7), (4, 8), (4, 9), (4, 10), (4, 11), (5, 3), (5, 4), (5, 5), (5, 6),
   (5, 7), (5, 8), (5, 9), (5, 10), (5, 11), (6, 0), (6, 1), (6, 2), (6, 3), (6, 4), (6, 5),
   (6, 6), (6, 7), (6, 8), (6, 9), (6, 10), (6, 11), (7, 0), (7, 1), (7, 2), (7, 3), (7, 4),
   (7, 5), (7, 6), (7, 7), (7, 8), (7, 9), (7, 10), (7, 11), (8, 0), (8, 1), (8, 2), (8, 3),
   (8, 4), (8, 5), (8, 6), (8, 7), (8, 8), (8, 9), (8, 10), (8, 11), (9, 0), (9, 1), (9, 2),
   (9, 3), (9, 4), (9, 5), (9, 6), (9, 7), (9, 8), (9, 9), (9, 10), (9, 11), (10, 0), (10, 1),
   (10, 2), (10, 3), (10, 4), (10, 5), (10, 6), (10, 7), (10, 8), (10, 9), (10, 10), (10, 11),
   (11, 0), (11, 1), (11, 2), (11, 3), (11, 4), (11, 5), (11, 6), (11, 7), (11, 8), (11, 9),
   (11, 10), (11, 11)]

lemma natFootprint_12_0_0_3 :
    natFootprint 12 0 0 3 =
      [(0, 0), (0, 1), (0, 2), (1, 0), (1, 1), (1, 2), (2, 0), (2, 1), (2, 2)] := rfl

lemma natFootprint_12_3_0_3 :
    natFootprint 12 3 0 3 =
      [(0, 3), (0, 4), (0, 5), (1, 3), (1, 4), (1, 5), (2, 3), (2, 4), (2, 5)] := rfl

lemma natFootprint_12_6_0_3 :
    natFootprint 12 6 0 3 =
      [(0, 6), (0, 7), (0, 8), (1, 6), (1, 7), (1, 8), (2, 6), (2, 7), (2, 8)] := rfl

lemma natFootprint_12_9_0_3 :
    natFootprint 12 9 0 3 =
      [(0, 9), (0, 10), (0, 11), (1, 9), (1, 10), (1, 11), (2, 9), (2, 10), (2, 11)] := rfl

lemma natFootprint_12_0_3_3 :
    natFootprint 12 0 3 3 =
      [(3, 0), (3, 1), (3, 2), (4, 0), (4, 1), (4, 2), (5, 0), (5, 1), (5, 2)] := rfl

lemma natFootprint_12_3_3_1 :
    natFootprint 12 3 3 1 =
      [(3, 3)] := rfl

lemma natFootprint_12_4_3_1 :
    natFootprint 12 4 3 1 =
      [(3, 4)] := rfl

lemma natFootprint_12_5_3_1 :
    natFootprint 12 5 3 1 =
      [(3, 5)] := rfl

/-- C3: for every five assets, the bulk placement with `minCount = 8` on
an empty 12-column canvas produces exactly 8 placed items, and the cell
footprints of every two distinct placements are disjoint. -/
theorem claim03_pack_multiple (a b c d e : NFT) :
    (addMultipleItems [a, b, c, d, e] 8 12).length = 8 ∧
    pairwiseDisjointFootprints 12 (addMultipleItems [a, b, c, d, e] 8 12)
      = true := by
  have hg : gridSizeOf 12 = 12 := gridSizeOf_eq 12 (by norm_num)
  have e0 : allCells 12 = packCells0 := rfl
  have ee : [a, b, c, d, e].enum = [(0, a), (1, b), (2, c), (3, d), (4, e)] := rfl
  have h1 : placeStep 12 (cellSizeOf 12) (packCells0,
      ([] : List CanvasItem)) (0, a) = (packCells1,
      [⟨genId 0, a, ((0 : ℕ) : ℚ) * cellSizeOf 12,
        ((0 : ℕ) : ℚ) * cellSizeOf 12, cellSizeOf 12 * ((3 : ℕ) : ℚ),
        ((0 : ℕ) : ℤ) + 1, 0, 0, 100, 100⟩]) := rfl
  have h2 : placeStep 12 (cellSizeOf 12) (packCells1,
      [⟨genId 0, a, ((0 : ℕ) : ℚ) * cellSizeOf 12,
        ((0 : ℕ) : ℚ) * cellSizeOf 12, cellSizeOf 12 * ((3 : ℕ) : ℚ),
        ((0 : ℕ) : ℤ) + 1, 0, 0, 100, 100⟩]) (1, b) = (packCells2,
      [⟨genId 0, a, ((0 : ℕ) : ℚ) * cellSizeOf 12,
        ((0 : ℕ) : ℚ) * cellSizeOf 12, cellSizeOf 12 * ((3 : ℕ) : ℚ),
        ((0 : ℕ) : ℤ) + 1, 0, 0, 100, 100⟩,
      ⟨genId 1, b, ((3 : ℕ) : ℚ) * cellSizeOf 12,
        ((0 : ℕ) : ℚ) * cellSizeOf 12, cellSizeOf 12 * ((3 : ℕ) : ℚ),
        ((1 : ℕ) : ℤ) + 1, 0, 0, 100, 100⟩]) := rfl
  have h3 : placeStep 12 (cellSizeOf 12) (packCells2,
      [⟨genId 0, a, ((0 : ℕ) : ℚ) * cellSizeOf 12,
        ((0 : ℕ) : ℚ) * cellSizeOf 12, cellSizeOf 12 * ((3 : ℕ) : ℚ),
        ((0 : ℕ) : ℤ) + 1, 0, 0, 100, 100⟩,
      ⟨genId 1, b, ((3 : ℕ) : ℚ) * cellSizeOf 12,
        ((0 : ℕ) : ℚ) * cellSizeOf 12, cellSizeOf 12 * ((3 : ℕ) : ℚ),
        ((1 : ℕ) : ℤ) + 1, 0, 0, 100, 100⟩]) (2, c) = (packCells3,
      [⟨genId 0, a, ((0 : ℕ) : ℚ) * cellSizeOf 12,
        ((0 : ℕ) : ℚ) * cellSizeOf 12, cellSizeOf 12 * ((3 : ℕ) : ℚ),
        ((0 : ℕ) : ℤ) + 1, 0, 0, 100, 100⟩,
      ⟨genId 1, b, ((3 : ℕ) : ℚ) * cellSizeOf 12,
        ((0 : ℕ) : ℚ) * cellSizeOf 12, cellSizeOf 12 * ((3 : ℕ) : ℚ),
        ((1 : ℕ) : ℤ) + 1, 0, 0, 100, 100⟩,
      ⟨genId 2, c, ((6 : ℕ) : ℚ) * cellSizeOf 12,
        ((0 : ℕ) : ℚ) * cellSizeOf 12, cellSizeOf 12 * ((3 : ℕ) : ℚ),
        ((2 : ℕ) : ℤ) + 1, 0, 0, 100, 100⟩]) := rfl
  have h4 : placeStep 12 (cellSizeOf 12) (packCells3,
      [⟨genId 0, a, ((0 : ℕ) : ℚ) * cellSizeOf 12,
        ((0 : ℕ) : ℚ) * cellSizeOf 12, cellSizeOf 12 * ((3 : ℕ) : ℚ),
        ((0 : ℕ) : ℤ) + 1, 0, 0, 100, 100⟩,
      ⟨genId 1, b, ((3 : ℕ) : ℚ) * cellSizeOf 12,
        ((0 : ℕ) : ℚ) * cellSizeOf 12, cellSizeOf 12 * ((3 : ℕ) : ℚ),
        ((1 : ℕ) : ℤ) + 1, 0, 0, 100, 100⟩,
      ⟨genId 2, c, ((6 : ℕ) : ℚ) * cellSizeOf 12,
        ((0 : ℕ) : ℚ) * cellSizeOf 12, cellSizeOf 12 * ((3 : ℕ) : ℚ),
        ((2 : ℕ) : ℤ) + 1, 0, 0, 100, 100⟩]) (3, d) = (packCells4,
      [⟨genId 0, a, ((0 : ℕ) : ℚ) * cellSizeOf 12,
        ((0 : ℕ) : ℚ) * cellSizeOf 12, cellSizeOf 12 * ((3 : ℕ) : ℚ),
        ((0 : ℕ) : ℤ) + 1, 0, 0, 100, 100⟩,
      ⟨genId 1, b, ((3 : ℕ) : ℚ) * cellSizeOf 12,
        ((0 : ℕ) : ℚ) * cellSizeOf 12, cellSizeOf 12 * ((3 : ℕ) : ℚ),
        ((1 : ℕ) : ℤ) + 1, 0, 0, 100, 100⟩,
      ⟨genId 2, c, ((6 : ℕ) : ℚ) * cellSizeOf 12,
        ((0 : ℕ) : ℚ) * cellSizeOf 12, cellSizeOf 12 * ((3 : ℕ) : ℚ),
        ((2 : ℕ) : ℤ) + 1, 0, 0, 100, 100⟩,
      ⟨genId 3, d, ((9 : ℕ) : ℚ) * cellSizeOf 12,
        ((0 : ℕ) : ℚ) * cellSizeOf 12, cellSizeOf 12 * ((3 : ℕ) : ℚ),
        ((3 : ℕ) : ℤ) + 1, 0, 0, 100, 100⟩]) := rfl
  have h5 : placeStep 12 (cellSizeOf 12) (packCells4,
      [⟨genId 0, a, ((0 : ℕ) : ℚ) * cellSizeOf 12,
        ((0 : ℕ) : ℚ) * cellSizeOf 12, cellSizeOf 12 * ((3 : ℕ) : ℚ),
        ((0 : ℕ) : ℤ) + 1, 0, 0, 100, 100⟩,
      ⟨genId 1, b, ((3 : ℕ) : ℚ) * cellSizeOf 12,
        ((0 : ℕ) : ℚ) * cellSizeOf 12, cellSizeOf 12 * ((3 : ℕ) : ℚ),
        ((1 : ℕ) : ℤ) + 1, 0, 0, 100, 100⟩,
      ⟨genId 2, c, ((6 : ℕ) : ℚ) * cellSizeOf 12,
        ((0 : ℕ) : ℚ) * cellSizeOf 12, cellSizeOf 12 * ((3 : ℕ) : ℚ),
        ((2 : ℕ) : ℤ) + 1, 0, 0, 100, 100⟩,
      ⟨genId 3, d, ((9 : ℕ) : ℚ) * cellSizeOf 12,
        ((0 : ℕ) : ℚ) * cellSizeOf 12, cellSizeOf 12 * ((3 : ℕ) : ℚ),
        ((3 : ℕ) : ℤ) + 1, 0, 0, 100, 100⟩]) (4, e) = (packCells5,
      [⟨genId 0, a, ((0 : ℕ) : ℚ) * cellSizeOf 12,
        ((0 : ℕ) : ℚ) * cellSizeOf 12, cellSizeOf 12 * ((3 : ℕ) : ℚ),
        ((0 : ℕ) : ℤ) + 1, 0, 0, 100, 100⟩,
      ⟨genId 1, b, ((3 : ℕ) : ℚ) * cellSizeOf 12,
        ((0 : ℕ) : ℚ) * cellSizeOf 12, cellSizeOf 12 * ((3 : ℕ) : ℚ),
        ((1 : ℕ) : ℤ) + 1, 0, 0, 100, 100⟩,
      ⟨genId 2, c, ((6 : ℕ) : ℚ) * cellSizeOf 12,
        ((0 : ℕ) : ℚ) * cellSizeOf 12, cellSizeOf 12 * ((3 : ℕ) : ℚ),
        ((2 : ℕ) : ℤ) + 1, 0, 0, 100, 100⟩,
      ⟨genId 3, d, ((9 : ℕ) : ℚ) * cellSizeOf 12,
        ((0 : ℕ) : ℚ) * cellSizeOf 12, cellSizeOf 12 * ((3 : ℕ) : ℚ),
        ((3 : ℕ) : ℤ) + 1, 0, 0, 100, 100⟩,
      ⟨genId 4, e, ((0 : ℕ) : ℚ) * cellSizeOf 12,
        ((3 : ℕ) : ℚ) * cellSizeOf 12, cellSizeOf 12 * ((3 : ℕ) : ℚ),
        ((4 : ℕ) : ℤ) + 1, 0, 0, 100, 100⟩]) := rfl
  have hfold : [(0, a), (1, b), (2, c), (3, d), (4, e)].foldl
      (placeStep 12 (cellSizeOf 12)) (packCells0, ([] : List CanvasItem))
      = (packCells5,
      [⟨genId 0, a, ((0 : ℕ) : ℚ) * cellSizeOf 12,
        ((0 : ℕ) : ℚ) * cellSizeOf 12, cellSizeOf 12 * ((3 : ℕ) : ℚ),
        ((0 : ℕ) : ℤ) + 1, 0, 0, 100, 100⟩,
      ⟨genId 1, b, ((3 : ℕ) : ℚ) * cellSizeOf 12,
        ((0 : ℕ) : ℚ) * cellSizeOf 12, cellSizeOf 12 * ((3 : ℕ) : ℚ),
        ((1 : ℕ) : ℤ) + 1, 0, 0, 100, 100⟩,
      ⟨genId 2, c, ((6 : ℕ) : ℚ) * cellSizeOf 12,
        ((0 : ℕ) : ℚ) * cellSizeOf 12, cellSizeOf 12 * ((3 : ℕ) : ℚ),
        ((2 : ℕ) : ℤ) + 1, 0, 0, 100, 100⟩,
      ⟨genId 3, d, ((9 : ℕ) : ℚ) * cellSizeOf 12,
        ((0 : ℕ) : ℚ) * cellSizeOf 12, cellSizeOf 12 * ((3 : ℕ) : ℚ),
        ((3 : ℕ) : ℤ) + 1, 0, 0, 100, 100⟩,
      ⟨genId 4, e, ((0 : ℕ) : ℚ) * cellSizeOf 12,
        ((3 : ℕ) : ℚ) * cellSizeOf 12, cellSizeOf 12 * ((3 : ℕ) : ℚ),
        ((4 : ℕ) : ℤ) + 1, 0, 0, 100, 100⟩]) := by
    rw [List.foldl_cons, h1, List.foldl_cons, h2, List.foldl_cons, h3,
      List.foldl_cons, h4, List.foldl_cons, h5, List.foldl_nil]
  have hitems : addMultipleItems [a, b, c, d, e] 8 12
      = [⟨genId 0, a, ((0 : ℕ) : ℚ) * cellSizeOf 12,
        ((0 : ℕ) : ℚ) * cellSizeOf 12, cellSizeOf 12 * ((3 : ℕ) : ℚ),
        ((0 : ℕ) : ℤ) + 1, 0, 0, 100, 100⟩,
      ⟨genId 1, b, ((3 : ℕ) : ℚ) * cellSizeOf 12,
        ((0 : ℕ) : ℚ) * cellSizeOf 12, cellSizeOf 12 * ((3 : ℕ) : ℚ),
        ((1 : ℕ) : ℤ) + 1, 0, 0, 100, 100⟩,
      ⟨genId 2, c, ((6 : ℕ) : ℚ) * cellSizeOf 12,
        ((0 : ℕ) : ℚ) * cellSizeOf 12, cellSizeOf 12 * ((3 : ℕ) : ℚ),
        ((2 : ℕ) : ℤ) + 1, 0, 0, 100, 100⟩,
      ⟨genId 3, d, ((9 : ℕ) : ℚ) * cellSizeOf 12,
        ((0 : ℕ) : ℚ) * cellSizeOf 12, cellSizeOf 12 * ((3 : ℕ) : ℚ),
        ((3 : ℕ) : ℤ) + 1, 0, 0, 100, 100⟩,
      ⟨genId 4, e, ((0 : ℕ) : ℚ) * cellSizeOf 12,
        ((3 : ℕ) : ℚ) * cellSizeOf 12, cellSizeOf 12 * ((3 : ℕ) : ℚ),
        ((4 : ℕ) : ℤ) + 1, 0, 0, 100, 100⟩,
      ⟨genId (5 + 0), a, ((3 : ℕ) : ℚ) * cellSizeOf 12,
        ((3 : ℕ) : ℚ) * cellSizeOf 12, cellSizeOf 12,
        ((5 : ℕ) : ℤ) + 1, 0, 0, 100, 100⟩,
      ⟨genId (5 + 1), b, ((4 : ℕ) : ℚ) * cellSizeOf 12,
        ((3 : ℕ) : ℚ) * cellSizeOf 12, cellSizeOf 12,
        ((6 : ℕ) : ℤ) + 1, 0, 0, 100, 100⟩,
      ⟨genId (5 + 2), c, ((5 : ℕ) : ℚ) * cellSizeOf 12,
        ((3 : ℕ) : ℚ) * cellSizeOf 12, cellSizeOf 12,
        ((7 : ℕ) : ℤ) + 1, 0, 0, 100, 100⟩] := by
    show addMultipleItemsCore (gridSizeOf 12) (cellSizeOf 12) [a, b, c, d, e] 8 = _
    rw [hg]
    show fillLoop (cellSizeOf 12) 8 [a, b, c, d, e]
        ([a, b, c, d, e].enum.foldl (placeStep 12 (cellSizeOf 12))
          (allCells 12, [])).1
        ([a, b, c, d, e].enum.foldl (placeStep 12 (cellSizeOf 12))
          (allCells 12, [])).2 0 = _
    rw [ee, e0, hfold]
    rfl
  rw [hitems]
  refine ⟨rfl, ?_⟩
  simp only [pairwiseDisjointFootprints, List.all_cons, List.all_nil,
    cellsOfItem_aligned 12 (by norm_num),
    cellsOfItem_aligned_one 12 (by norm_num), hg,
    natFootprint_12_0_0_3, natFootprint_12_0_3_3, natFootprint_12_3_0_3, natFootprint_12_3_3_1, natFootprint_12_4_3_1, natFootprint_12_5_3_1, natFootprint_12_6_0_3, natFootprint_12_9_0_3]
  decide

